import Mathlib

/-!
A shallow embedding of the task-trigger core of mini-sirus (Go) in Lean 4,
together with theorems settling the specification claims about it.

Conventions of the embedding:
* Go `int64` / `int` become `Int` (no arithmetic here approaches overflow).
* `time.Time` becomes `Int` (seconds on an abstract time axis); `time.Duration`
  constants become the corresponding number of seconds.  Every Go function that
  calls `time.Now()` takes the current instant `now : Int` as an argument.
* Go maps become association lists (`List (κ × α)`); `m[k]` missing-key reads
  yield the zero value, mirrored by a defaulted lookup.  Go map iteration order
  is unspecified; wherever a claim depends on the order in which a map is
  iterated, the iteration order is an explicit parameter constrained to be a
  permutation of the stored entries.
* Fallible Go functions return `Except String α` (Go errors are strings built
  with `fmt.Errorf`; the code under study never defines an error type).
* A Go runtime panic (nil-pointer dereference) is the `panics` constructor of
  `GoOutcome`; `nil` pointer arguments are `Option.none`.
* `float64` becomes `ℚ` (exact arithmetic standing in for floating point; the
  claims never depend on rounding).
* The govaluate library is an external collaborator ("the expression-evaluation
  engine itself" is out of scope per the specification); it is a parameter
  `gov` producing a parse error, an evaluation error, or a value.
-/

/-- Lookup in a Go-map modelled as an association list. -/
def mapLookup {κ α : Type} [DecidableEq κ] : List (κ × α) → κ → Option α
  | [], _ => none
  | (k, v) :: rest, key => if k = key then some v else mapLookup rest key

/-- Lookup with the Go zero-value default (`m[k]` on a missing key). -/
def mapLookupD {κ α : Type} [DecidableEq κ] (m : List (κ × α)) (key : κ) (dflt : α) : α :=
  (mapLookup m key).getD dflt

/-- Go map assignment `m[k] = v`: overwrite if present, append otherwise. -/
def mapInsert {κ α : Type} [DecidableEq κ] : List (κ × α) → κ → α → List (κ × α)
  | [], key, v => [(key, v)]
  | (k, w) :: rest, key, v =>
    if k = key then (k, v) :: rest else (k, w) :: mapInsert rest key v

/-- Go map `delete(m, k)`. -/
def mapErase {κ α : Type} [DecidableEq κ] (m : List (κ × α)) (key : κ) : List (κ × α) :=
  m.filter (fun p => p.1 ≠ key)

/-- Outcome of running a Go computation that may panic (nil-pointer dereference). -/
inductive GoOutcome (α : Type) where
  | panics
  | returns (val : α)
deriving DecidableEq

/-- `strContains hay needle` mirrors Go `strings.Contains(hay, needle)`:
the needle's character sequence occurs contiguously in the haystack's. -/
def strContains (hay needle : String) : Bool :=
  decide (needle.data <:+: hay.data)

/-! ## Domain entities (internal/domain/entity) -/

/-- `entity.TaskStatus` (status.go): 0 = pending, 1 = done. -/
inductive TaskStatus where
  | pending
  | done
deriving DecidableEq

/-- `entity.TaskDetailStatus` (status.go). -/
inductive TaskDetailStatus where
  | pending
  | done
deriving DecidableEq

/-- `entity.ActUserTask`: a user's instance of a campaign task. -/
structure ActUserTask where
  id : Int
  activityID : Int
  taskID : Int
  userID : Int
  taskType : String
  status : TaskStatus
  progress : Int
  target : Int
  taskCondExpr : String
  createdAt : Int
  updatedAt : Int
deriving DecidableEq

/-- `entity.ActUserTaskDetail`: one completion record for a task. -/
structure ActUserTaskDetail where
  id : Int
  taskID : Int
  userID : Int
  status : TaskDetailStatus
  uniqueFlag : String
  rewardValue : Int
  createdAt : Int
  updatedAt : Int
deriving DecidableEq

namespace ActUserTask

/-- `ActUserTask.IsCompleted`. -/
def isCompleted (t : ActUserTask) : Bool :=
  t.status = TaskStatus.done

/-- `ActUserTask.IsPending`. -/
def isPending (t : ActUserTask) : Bool :=
  t.status = TaskStatus.pending

/-- `ActUserTask.CanProgress`: pending and progress below target. -/
def canProgress (t : ActUserTask) : Bool :=
  t.isPending && t.progress < t.target

/-- `ActUserTask.UpdateProgress`: returns unchanged unless `CanProgress`;
otherwise increments progress, marks done when progress reaches target,
and refreshes `UpdatedAt` from the clock. -/
def updateProgress (t : ActUserTask) (now : Int) : ActUserTask :=
  if ¬ t.canProgress then t
  else
    let t1 := { t with progress := t.progress + 1 }
    let t2 := if t1.target ≤ t1.progress then { t1 with status := TaskStatus.done } else t1
    { t2 with updatedAt := now }

/-- `ActUserTask.IsValid`. -/
def isValid (t : ActUserTask) : Bool :=
  0 < t.activityID && 0 < t.taskID && 0 < t.userID && 0 < t.target && t.taskCondExpr ≠ ""

/-- One day of seconds (`24 * time.Hour`). -/
def secondsPerDay : Int := 86400

/-- `ActUserTask.IsExpired(validDays)`: `time.Since(CreatedAt) > validDays*24h`. -/
def isExpired (t : ActUserTask) (now : Int) (validDays : Int) : Bool :=
  validDays * secondsPerDay < now - t.createdAt

end ActUserTask

/-! ## Task type value object (internal/domain/valueobject/task_type.go) -/

/-- `valueobject.TaskType.IsValid`. -/
def taskTypeIsValid (t : String) : Bool :=
  t = "publish_times" || t = "share_times" || t = "like_times" ||
    t = "comment_times" || t = "checkin"

/-! ## Expression values and the rule-engine adapter
(internal/adapter/rule_engine/govaluate_adapter.go) -/

/-- A typed value flowing through the expression evaluator. -/
inductive GovValue where
  | num (val : ℚ)
  | boolean (val : Bool)
  | str (val : String)
  | ids (val : List Nat)
deriving DecidableEq

/-- `valueobject.ExpressionArguments`: argument name → typed value. -/
def ExpressionArguments : Type := List (String × GovValue)

/-- `govaluate.ExpressionFunction`: a named callable predicate. -/
def GovFunction : Type := List GovValue → Except String GovValue

/-- A per-invocation registry of named callable functions. -/
def FuncMap : Type := List (String × GovFunction)

/-- What the external govaluate engine can report for a non-empty expression:
a parse failure, an evaluation failure, or a resulting value. -/
inductive GovResult where
  | parseError (msg : String)
  | evalError (msg : String)
  | value (v : GovValue)

/-- The external govaluate engine, abstracted: given the merged function
registry, the expression text and the argument bag it parses and evaluates. -/
def GovEngine : Type := FuncMap → String → ExpressionArguments → GovResult

/-- The function-merge loop of `GovaluateAdapter.Evaluate`: the adapter's base
registry first, then the per-call functions (per-call wins on collision). -/
def mergeFunctions (base percall : FuncMap) : FuncMap :=
  percall.foldl (fun acc p => mapInsert acc p.1 p.2) (base.foldl (fun acc p => mapInsert acc p.1 p.2) [])

namespace GovaluateAdapter

/-- `GovaluateAdapter.Evaluate`: empty expression defaults to true; otherwise
parse/evaluate through govaluate, wrapping the two error kinds differently,
and insist on a boolean result. -/
def evaluate (gov : GovEngine) (base : FuncMap) (expr : String)
    (functions : FuncMap) (args : ExpressionArguments) : Except String Bool :=
  if expr = "" then Except.ok true
  else
    match gov (mergeFunctions base functions) expr args with
    | GovResult.parseError e => Except.error ("parse expression failed: " ++ e)
    | GovResult.evalError e => Except.error ("evaluate expression failed: " ++ e)
    | GovResult.value (GovValue.boolean b) => Except.ok b
    | GovResult.value _ => Except.error "expression result must be bool"

end GovaluateAdapter

/-! ## The in-memory key lock (internal/infrastructure/lock) -/

/-- `infrastructure.MemoryLock`: key → lock id. -/
structure MemoryLock where
  locks : List (String × String)
deriving DecidableEq

namespace MemoryLock

/-- `MemoryLock.Lock`: fails immediately if the key is held; otherwise mints a
token from the key and the current number of held locks and records it.
The `ttl` is accepted but not enforced, as in the source. -/
def lock (l : MemoryLock) (key : String) (ttl : Int) : Except String String × MemoryLock :=
  let _ := ttl
  match mapLookup l.locks key with
  | some _ => (Except.error ("lock already exists for key: " ++ key), l)
  | none =>
    let lockID := "lock_" ++ key ++ "_" ++ toString (l.locks.length + 1)
    (Except.ok lockID, { locks := mapInsert l.locks key lockID })

/-- `MemoryLock.Unlock`: fails if the key is not held or the token does not
match the current holder; otherwise deletes the entry. -/
def unlock (l : MemoryLock) (key : String) (lockID : String) : Except String Unit × MemoryLock :=
  match mapLookup l.locks key with
  | none => (Except.error ("lock not found for key: " ++ key), l)
  | some existing =>
    if existing ≠ lockID then (Except.error ("lock id mismatch for key: " ++ key), l)
    else (Except.ok (), { locks := mapErase l.locks key })

/-- `MemoryLock.TryLock`: like `lock` but signals contention without an error. -/
def tryLock (l : MemoryLock) (key : String) (ttl : Int) :
    (Bool × String × MemoryLock) :=
  let _ := ttl
  match mapLookup l.locks key with
  | some _ => (false, "", l)
  | none =>
    let lockID := "lock_" ++ key ++ "_" ++ toString (l.locks.length + 1)
    (true, lockID, { locks := mapInsert l.locks key lockID })

end MemoryLock

/-! ## The in-memory risk-control service
(internal/adapter/repository/memory/risk_check_repository.go) -/

/-- `output.UserBehaviorRecord`. -/
structure UserBehaviorRecord where
  userID : Int
  action : String
  taskID : Int
  timestamp : Int
deriving DecidableEq

/-- `output.TaskCompletionRecord`. -/
structure TaskCompletionRecord where
  userID : Int
  taskID : Int
  timestamp : Int
deriving DecidableEq

/-- `memory.RiskCheckServiceMemory`: per-user histories, the blacklist and the
two device-fingerprint maps. -/
structure RiskCheckServiceMemory where
  userBehaviors : List (Int × List UserBehaviorRecord)
  taskCompletions : List (Int × List TaskCompletionRecord)
  blacklist : List (Int × String)
  userDevices : List (Int × List String)
  deviceUsers : List (String × List Int)
deriving DecidableEq

/-- `NewRiskCheckServiceMemory`. -/
def newRiskCheckServiceMemory : RiskCheckServiceMemory :=
  { userBehaviors := [], taskCompletions := [], blacklist := [],
    userDevices := [], deviceUsers := [] }

/-- `calculateVariance` (risk_check_repository.go): population variance of a
list of values, 0 for the empty list. -/
def calculateVariance (values : List ℚ) : ℚ :=
  if values.length = 0 then 0
  else
    let mean := values.sum / (values.length : ℚ)
    (values.map (fun v => (v - mean) * (v - mean))).sum / (values.length : ℚ)

namespace RiskCheckServiceMemory

/-- Seconds in one minute / one hour / 24 hours. -/
def minuteSeconds : Int := 60

def hourSeconds : Int := 3600

def daySeconds : Int := 86400

/-- `CheckUserBehavior`: reject when more than 10 behavior events fall in the
trailing minute, or when the inter-event gaps of the 5 most recent events have
variance below 0.1.  The `detail` argument is never read by the source. -/
def checkUserBehavior (now : Int) (r : RiskCheckServiceMemory) (userID : Int)
    (detail : Option ActUserTaskDetail) : Except String Unit :=
  let _ := detail
  let behaviors := mapLookupD r.userBehaviors userID []
  if behaviors.length = 0 then Except.ok ()
  else
    let oneMinuteAgo := now - minuteSeconds
    let recentCount := behaviors.countP (fun b => oneMinuteAgo < b.timestamp)
    if 10 < recentCount then
      Except.error ("用户行为异常: 1分钟内操作次数过多(" ++ toString recentCount ++ "次)")
    else if 5 ≤ behaviors.length then
      let recentBehaviors := behaviors.drop (behaviors.length - 5)
      let intervals := (recentBehaviors.zip recentBehaviors.tail).map
        (fun p => ((p.2.timestamp - p.1.timestamp : Int) : ℚ))
      if intervals.length ≠ 0 then
        let variance := calculateVariance intervals
        if variance < (1 : ℚ) / 10 then
          Except.error ("用户行为异常: 操作时间间隔过于规律(方差: " ++ toString variance ++ ")")
        else Except.ok ()
      else Except.ok ()
    else Except.ok ()

/-- `CheckTaskFrequency`: reject when the same task was completed at least 10
times in the trailing hour, or at least 100 tasks in the trailing 24 hours, or
— with fewer than 50 recorded completions ("new user") — more than 20 tasks in
the trailing 24 hours. -/
def checkTaskFrequency (now : Int) (r : RiskCheckServiceMemory)
    (userID taskID : Int) : Except String Unit :=
  let completions := mapLookupD r.taskCompletions userID []
  if completions.length = 0 then Except.ok ()
  else
    let oneHourAgo := now - hourSeconds
    let taskCount := completions.countP
      (fun c => oneHourAgo < c.timestamp && c.taskID = taskID)
    if 10 ≤ taskCount then
      Except.error ("任务完成频率过高: 1小时内完成同一任务" ++ toString taskCount ++ "次")
    else
      let oneDayAgo := now - daySeconds
      let totalCount := completions.countP (fun c => oneDayAgo < c.timestamp)
      if 100 ≤ totalCount then
        Except.error ("任务完成频率过高: 24小时内完成" ++ toString totalCount ++ "次任务")
      else if completions.length < 50 ∧ 20 < totalCount then
        Except.error ("新用户异常活跃: 24小时内完成" ++ toString totalCount ++ "次任务")
      else Except.ok ()

/-- `CheckDeviceFingerprint`: the source immediately reads `detail.UniqueFlag`,
so a `nil` detail is a nil-pointer dereference (a panic).  With a detail
present, an empty device id passes; otherwise the two device/user linkage
bounds are enforced. -/
def checkDeviceFingerprint (r : RiskCheckServiceMemory) (userID : Int)
    (detail : Option ActUserTaskDetail) : GoOutcome (Except String Unit) :=
  match detail with
  | none => GoOutcome.panics
  | some d =>
    let deviceID := d.uniqueFlag
    if deviceID = "" then GoOutcome.returns (Except.ok ())
    else
      match mapLookup r.deviceUsers deviceID with
      | some users =>
        if 5 < users.length then
          GoOutcome.returns (Except.error
            ("设备指纹异常: 单设备关联账号过多(" ++ toString users.length ++ "个账号)"))
        else
          match mapLookup r.userDevices userID with
          | some devices =>
            if 10 < devices.length then
              GoOutcome.returns (Except.error
                ("设备指纹异常: 用户使用设备过多(" ++ toString devices.length ++ "个设备)"))
            else GoOutcome.returns (Except.ok ())
          | none => GoOutcome.returns (Except.ok ())
      | none =>
        match mapLookup r.userDevices userID with
        | some devices =>
          if 10 < devices.length then
            GoOutcome.returns (Except.error
              ("设备指纹异常: 用户使用设备过多(" ++ toString devices.length ++ "个设备)"))
          else GoOutcome.returns (Except.ok ())
        | none => GoOutcome.returns (Except.ok ())

/-- `RecordTaskCompletion`: append a completion and a behavior record for the
user, keeping only the 1000 most recent of each. -/
def recordTaskCompletion (r : RiskCheckServiceMemory)
    (userID taskID timestamp : Int) : RiskCheckServiceMemory :=
  let completions := mapLookupD r.taskCompletions userID [] ++
    [{ userID := userID, taskID := taskID, timestamp := timestamp }]
  let behaviors := mapLookupD r.userBehaviors userID [] ++
    [{ userID := userID, action := "task_complete", taskID := taskID, timestamp := timestamp }]
  let completions := if 1000 < completions.length
    then completions.drop (completions.length - 1000) else completions
  let behaviors := if 1000 < behaviors.length
    then behaviors.drop (behaviors.length - 1000) else behaviors
  { r with
    taskCompletions := mapInsert r.taskCompletions userID completions
    userBehaviors := mapInsert r.userBehaviors userID behaviors }

/-- `IsUserBlacklisted`. -/
def isUserBlacklisted (r : RiskCheckServiceMemory) (userID : Int) : Bool :=
  (mapLookup r.blacklist userID).isSome

/-- `AddToBlacklist`: requires a non-empty reason. -/
def addToBlacklist (r : RiskCheckServiceMemory) (userID : Int) (reason : String) :
    Except String Unit × RiskCheckServiceMemory :=
  if reason = "" then (Except.error "加入黑名单必须提供原因", r)
  else (Except.ok (), { r with blacklist := mapInsert r.blacklist userID reason })

end RiskCheckServiceMemory

/-! ## The observer registry (internal/adapter/observer/task_observer_registry) -/

/-- A registered observer: a name and the `OnTaskDetailCreated` callback. -/
structure TaskObserver where
  name : String
  onTaskDetailCreated : ActUserTaskDetail → Except String Unit

/-- `observer.TaskObserverRegistry`: observers stored in a Go map keyed by
observer name.  The map's iteration order is unspecified. -/
structure TaskObserverRegistry where
  observers : List (String × TaskObserver)

/-- `Register`: skip an empty name; re-registering an existing name is a no-op. -/
def TaskObserverRegistry.register (r : TaskObserverRegistry) (o : TaskObserver) :
    TaskObserverRegistry :=
  if o.name = "" then r
  else
    match mapLookup r.observers o.name with
    | some _ => r
    | none => { observers := mapInsert r.observers o.name o }

/-- `Unregister`. -/
def TaskObserverRegistry.unregister (r : TaskObserverRegistry) (name : String) :
    TaskObserverRegistry :=
  { observers := mapErase r.observers name }

/-- The observers held by the registry's map, in storage order.  An admissible
iteration of the map is any permutation of this list. -/
def TaskObserverRegistry.entries (r : TaskObserverRegistry) : List TaskObserver :=
  r.observers.map Prod.snd

/-- `Notify`, run along one concrete iteration order of the observers map:
observers are invoked one by one and the first error stops the iteration.
Returns the names of the observers actually invoked (in invocation order,
instrumentation for stating the ordering property) together with the error
surfaced by `Notify` (`none` when every observer succeeded). -/
def notifyRun : List TaskObserver → ActUserTaskDetail → List String × Option String
  | [], _ => ([], none)
  | o :: rest, detail =>
    match o.onTaskDetailCreated detail with
    | Except.error e => ([o.name], some ("observer " ++ o.name ++ " failed: " ++ e))
    | Except.ok _ =>
      let r := notifyRun rest detail
      (o.name :: r.1, r.2)

/-! ## The in-memory repositories (internal/adapter/repository/memory) -/

/-- `memory.TaskRepositoryMemory`. -/
structure TaskRepositoryMemory where
  tasks : List (Int × ActUserTask)
  idGen : Int
deriving DecidableEq

/-- `NewTaskRepositoryMemory`. -/
def newTaskRepositoryMemory : TaskRepositoryMemory :=
  { tasks := [], idGen := 1000 }

namespace TaskRepositoryMemory

/-- `Create`: assign the next generated id and the clock timestamps, store a copy. -/
def create (r : TaskRepositoryMemory) (t : ActUserTask) (now : Int) :
    ActUserTask × TaskRepositoryMemory :=
  let id := r.idGen + 1
  let stored := { t with id := id, createdAt := now, updatedAt := now }
  (stored, { tasks := mapInsert r.tasks id stored, idGen := id })

/-- `Update`: not-found error for an unknown id; otherwise refresh `UpdatedAt`
and store a copy. -/
def update (r : TaskRepositoryMemory) (t : ActUserTask) (now : Int) :
    Except String Unit × TaskRepositoryMemory :=
  match mapLookup r.tasks t.id with
  | none => (Except.error "task not found", r)
  | some _ =>
    let stored := { t with updatedAt := now }
    (Except.ok (), { r with tasks := mapInsert r.tasks t.id stored })

/-- `ListByUserIDAndType`: the tasks of one user with one task type.  The Go
map is iterated in an unspecified order; this returns them in storage order,
and callers that depend on the order quantify over its permutations. -/
def listByUserIDAndType (r : TaskRepositoryMemory) (userID : Int)
    (taskType : String) : List ActUserTask :=
  (r.tasks.map Prod.snd).filter (fun t => t.userID = userID && t.taskType = taskType)

end TaskRepositoryMemory

/-- `memory.TaskDetailRepositoryMemory`. -/
structure TaskDetailRepositoryMemory where
  details : List (Int × ActUserTaskDetail)
  idGen : Int
deriving DecidableEq

/-- `NewTaskDetailRepositoryMemory`. -/
def newTaskDetailRepositoryMemory : TaskDetailRepositoryMemory :=
  { details := [], idGen := 2000 }

namespace TaskDetailRepositoryMemory

/-- `Create`: assign the next generated id, overwrite the timestamps with the
clock, store a copy.  Never fails. -/
def create (r : TaskDetailRepositoryMemory) (d : ActUserTaskDetail) (now : Int) :
    ActUserTaskDetail × TaskDetailRepositoryMemory :=
  let id := r.idGen + 1
  let stored := { d with id := id, createdAt := now, updatedAt := now }
  (stored, { details := mapInsert r.details id stored, idGen := id })

/-- `ListByTaskID`. -/
def listByTaskID (r : TaskDetailRepositoryMemory) (taskID : Int) :
    List ActUserTaskDetail :=
  (r.details.map Prod.snd).filter (fun d => d.taskID = taskID)

/-- `ExistsByUniqueFlag`. -/
def existsByUniqueFlag (r : TaskDetailRepositoryMemory) (uniqueFlag : String) : Bool :=
  (r.details.map Prod.snd).any (fun d => d.uniqueFlag = uniqueFlag)

end TaskDetailRepositoryMemory

/-! ## The create-task use case (internal/usecase/task/create_task.go) -/

/-- `dto.CreateTaskInput`. -/
structure CreateTaskInput where
  activityID : Int
  taskID : Int
  userID : Int
  target : Int
  taskType : String
  taskCondExpr : String
deriving DecidableEq

namespace CreateTaskUseCase

/-- `CreateTaskUseCase.validateInput`. -/
def validateInput (input : CreateTaskInput) : Except String Unit :=
  if input.activityID ≤ 0 then Except.error "activity_id is required"
  else if input.taskID ≤ 0 then Except.error "task_id is required"
  else if input.userID ≤ 0 then Except.error "user_id is required"
  else if input.target ≤ 0 then Except.error "target must be greater than 0"
  else if ¬ taskTypeIsValid input.taskType then Except.error "invalid task type"
  else if input.taskCondExpr = "" then Except.error "task_cond_expr is required"
  else Except.ok ()

/-- `CreateTaskUseCase.Execute`: validate, build the pending entity with zero
progress, re-validate the entity, and persist it. -/
def execute (repo : TaskRepositoryMemory) (input : CreateTaskInput) (now : Int) :
    Except String ActUserTask × TaskRepositoryMemory :=
  match validateInput input with
  | Except.error e => (Except.error e, repo)
  | Except.ok _ =>
    let t : ActUserTask :=
      { id := 0, activityID := input.activityID, taskID := input.taskID,
        userID := input.userID, taskType := input.taskType,
        status := TaskStatus.pending, progress := 0, target := input.target,
        taskCondExpr := input.taskCondExpr, createdAt := now, updatedAt := now }
    if ¬ t.isValid then (Except.error "invalid task entity", repo)
    else
      let r := repo.create t now
      (Except.ok r.1, r.2)

end CreateTaskUseCase

/-! ## The trigger-task use case (internal/usecase/task/trigger_task.go,
the synchronous risk-gate design with `riskCheckService` injected) -/

/-- The mutable collaborators of one `TriggerTaskUseCase` wiring (cmd/api/main.go):
the two repositories, the risk service and the in-memory lock.  The observer
registry is carried separately because notification takes an explicit map
iteration order. -/
structure SysState where
  taskRepo : TaskRepositoryMemory
  detailRepo : TaskDetailRepositoryMemory
  risk : RiskCheckServiceMemory
  memLock : MemoryLock
deriving DecidableEq

namespace TriggerTaskUseCase

/-- The per-(user, task-type) lock key `task_lock:%d:%s`. -/
def lockKey (userID : Int) (taskType : String) : String :=
  "task_lock:" ++ toString userID ++ ":" ++ taskType

/-- `filterValidTasks`: drop completed tasks and tasks older than 30 days. -/
def filterValidTasks (now : Int) (tasks : List ActUserTask) : List ActUserTask :=
  tasks.filter (fun t => ¬ t.isCompleted && ¬ t.isExpired now 30)

/-- `isRiskCheckError`: classify an error as risk-related by checking whether
its message contains one of five keyword substrings. -/
def isRiskCheckError (msg : String) : Bool :=
  strContains msg "风控检查失败" || strContains msg "黑名单" ||
    strContains msg "用户行为异常" || strContains msg "任务完成频率过高" ||
    strContains msg "设备指纹异常"

/-- `performRiskCheck`: blacklist, behavior, frequency and device checks in
order, short-circuiting on the first failure; behavior/frequency/device
failures auto-blacklist before returning.  The behavior and device checks
receive a `nil` detail, as in the source. -/
def performRiskCheck (now : Int) (risk : RiskCheckServiceMemory)
    (userID taskID : Int) : GoOutcome (Except String Unit × RiskCheckServiceMemory) :=
  if risk.isUserBlacklisted userID then
    GoOutcome.returns (Except.error "用户已被列入黑名单，禁止完成任务", risk)
  else
    match risk.checkUserBehavior now userID none with
    | Except.error e =>
      let r := risk.addToBlacklist userID "用户行为异常"
      GoOutcome.returns (Except.error e, r.2)
    | Except.ok _ =>
      match RiskCheckServiceMemory.checkTaskFrequency now risk userID taskID with
      | Except.error e =>
        let r := risk.addToBlacklist userID "任务完成频率过高"
        GoOutcome.returns (Except.error e, r.2)
      | Except.ok _ =>
        match risk.checkDeviceFingerprint userID none with
        | GoOutcome.panics => GoOutcome.panics
        | GoOutcome.returns (Except.error e) =>
          let r := risk.addToBlacklist userID "设备指纹异常"
          GoOutcome.returns (Except.error e, r.2)
        | GoOutcome.returns (Except.ok _) =>
          GoOutcome.returns (Except.ok (), risk)

/-- The tail of `processTask` after the risk gate has passed (lines creating
the detail, advancing progress, recording the completion and notifying the
observers along the iteration order `notifyOrder`).  The observer error and the
recording error are deliberately swallowed; a failing `taskRepo.Update` is
returned after the detail was already persisted, as in the source. -/
def persistAndNotify (now : Int) (uniqueFlag : String)
    (notifyOrder : List TaskObserver) (s : SysState) (task : ActUserTask) :
    Except String Unit × SysState :=
  let detail0 : ActUserTaskDetail :=
    { id := 0, taskID := task.id, userID := task.userID,
      status := TaskDetailStatus.done, uniqueFlag := uniqueFlag,
      rewardValue := 1, createdAt := now, updatedAt := now }
  let cr := s.detailRepo.create detail0 now
  let detail := cr.1
  let s1 : SysState := { s with detailRepo := cr.2 }
  let task1 := task.updateProgress now
  match s1.taskRepo.update task1 now with
  | (Except.error e, repo1) =>
    (Except.error ("update task progress failed: " ++ e), { s1 with taskRepo := repo1 })
  | (Except.ok _, repo1) =>
    let s2 : SysState := { s1 with taskRepo := repo1 }
    let risk1 := s2.risk.recordTaskCompletion task.userID task.id detail.createdAt
    let s3 : SysState := { s2 with risk := risk1 }
    let _ := notifyRun notifyOrder detail
    (Except.ok (), s3)

/-- `processTask`: evaluate the condition expression; a non-match is a no-op;
on a match run the risk gate and, when it passes, persist and notify. -/
def processTask (now : Int) (gov : GovEngine) (base functions : FuncMap)
    (args : ExpressionArguments) (uniqueFlag : String)
    (notifyOrder : List TaskObserver) (s : SysState) (task : ActUserTask) :
    GoOutcome (Except String Unit × SysState) :=
  match GovaluateAdapter.evaluate gov base task.taskCondExpr functions args with
  | Except.error e =>
    GoOutcome.returns (Except.error ("evaluate expression failed: " ++ e), s)
  | Except.ok false => GoOutcome.returns (Except.ok (), s)
  | Except.ok true =>
    match performRiskCheck now s.risk task.userID task.id with
    | GoOutcome.panics => GoOutcome.panics
    | GoOutcome.returns (Except.error e, risk1) =>
      GoOutcome.returns (Except.error ("风控检查失败: " ++ e), { s with risk := risk1 })
    | GoOutcome.returns (Except.ok _, risk1) =>
      let s1 : SysState := { s with risk := risk1 }
      let r := persistAndNotify now uniqueFlag notifyOrder s1 task
      GoOutcome.returns r

/-- The per-task loop of `Execute`: remember the most recent error, return a
risk-classified error immediately, otherwise continue with the next task. -/
def processLoop (now : Int) (gov : GovEngine) (base functions : FuncMap)
    (args : ExpressionArguments) (uniqueFlag : String)
    (notifyOrder : List TaskObserver) :
    SysState → List ActUserTask → Option String → GoOutcome (Option String × SysState)
  | s, [], lastError => GoOutcome.returns (lastError, s)
  | s, task :: rest, lastError =>
    match processTask now gov base functions args uniqueFlag notifyOrder s task with
    | GoOutcome.panics => GoOutcome.panics
    | GoOutcome.returns (Except.ok _, s1) =>
      processLoop now gov base functions args uniqueFlag notifyOrder s1 rest lastError
    | GoOutcome.returns (Except.error e, s1) =>
      if isRiskCheckError e then GoOutcome.returns (some e, s1)
      else processLoop now gov base functions args uniqueFlag notifyOrder s1 rest (some e)

/-- Release the lock on exit (the `defer uc.distributedLock.Unlock(...)`);
the unlock result is discarded, as in the source. -/
def unlockOnExit (s : SysState) (key lockID : String) : SysState :=
  { s with memLock := (s.memLock.unlock key lockID).2 }

/-- `TriggerTaskUseCase.Execute` for an input carrying `userID`, `taskType`,
`uniqueFlag` and `args`, run against the task listing `tasksListing` (one
admissible iteration of the task map, see
`TaskRepositoryMemory.listByUserIDAndType`) and the observer iteration order
`notifyOrder`: acquire the per-user lock, load and filter the user's tasks,
process each in order, and release the lock on every exit path.  A panic
aborts the invocation abnormally. -/
def executeOn (now : Int) (gov : GovEngine) (base functions : FuncMap)
    (s : SysState) (userID : Int) (taskType : String) (uniqueFlag : String)
    (args : ExpressionArguments) (tasksListing : List ActUserTask)
    (notifyOrder : List TaskObserver) : GoOutcome (Option String × SysState) :=
  match s.memLock.lock (lockKey userID taskType) 30 with
  | (Except.error e, _) =>
    GoOutcome.returns (some ("acquire lock failed: " ++ e), s)
  | (Except.ok lockID, ml1) =>
    let s1 : SysState := { s with memLock := ml1 }
    if tasksListing.isEmpty then
      GoOutcome.returns (none, unlockOnExit s1 (lockKey userID taskType) lockID)
    else
      let validTasks := filterValidTasks now tasksListing
      match processLoop now gov base functions args uniqueFlag notifyOrder s1 validTasks none with
      | GoOutcome.panics => GoOutcome.panics
      | GoOutcome.returns (res, s2) =>
        GoOutcome.returns (res, unlockOnExit s2 (lockKey userID taskType) lockID)

/-- One admissible listing of the user's tasks of one type: any permutation of
the entries selected from the task map. -/
def admissibleListing (repo : TaskRepositoryMemory) (userID : Int)
    (taskType : String) (listing : List ActUserTask) : Prop :=
  listing.Perm (repo.listByUserIDAndType userID taskType)

end TriggerTaskUseCase

/-! ## Concrete fixtures used to evaluate the embedding on closed inputs -/

/-- A concrete external engine: every non-empty expression is reported as a
parse failure quoting the offending expression text, the way a parser's
"invalid token" message embeds the text it could not read. -/
def govDemo : GovEngine := fun _ expr _ => GovResult.parseError ("Invalid token: " ++ expr)

/-- A pending check-in task (empty condition expression) of user 7. -/
def demoTaskBlacklisted : ActUserTask :=
  ⟨1001, 1, 100, 7, "checkin", TaskStatus.pending, 0, 1, "", 0, 0⟩

/-- A store holding that one task, with user 7 already on the blacklist. -/
def demoStateBlacklisted : SysState :=
  ⟨⟨[(1001, demoTaskBlacklisted)], 1001⟩, ⟨[], 2000⟩,
    ⟨[], [], [(7, "任务完成频率过高")], [], []⟩, ⟨[]⟩⟩

/-- A pending task whose (malformed) condition expression happens to contain
the blacklist keyword, so its parse-error message contains it too. -/
def demoTaskKeyword : ActUserTask :=
  ⟨1001, 1, 100, 5, "checkin", TaskStatus.pending, 0, 3, "黑名单 > 1", 0, 0⟩

/-- A second pending task of the same user with a keyword-free malformed
expression. -/
def demoTaskPlain : ActUserTask :=
  ⟨1002, 1, 101, 5, "checkin", TaskStatus.pending, 0, 3, "x >", 0, 0⟩

/-- A keyword-free malformed first task, for contrast with `demoTaskKeyword`. -/
def demoTaskPlainFirst : ActUserTask :=
  ⟨1001, 1, 100, 5, "checkin", TaskStatus.pending, 0, 3, "y >", 0, 0⟩

/-- A store holding the keyword task then the plain task for user 5 (who is
not blacklisted). -/
def demoStateTwoTasks : SysState :=
  ⟨⟨[(1001, demoTaskKeyword), (1002, demoTaskPlain)], 1002⟩, ⟨[], 2000⟩,
    ⟨[], [], [], [], []⟩, ⟨[]⟩⟩

/-- The same store with the keyword-free first task instead. -/
def demoStateTwoPlainTasks : SysState :=
  ⟨⟨[(1001, demoTaskPlainFirst), (1002, demoTaskPlain)], 1002⟩, ⟨[], 2000⟩,
    ⟨[], [], [], [], []⟩, ⟨[]⟩⟩

/-- Two observers that always succeed, and one that always fails. -/
def obsA : TaskObserver := ⟨"A", fun _ => Except.ok ()⟩

def obsB : TaskObserver := ⟨"B", fun _ => Except.ok ()⟩

def obsE : TaskObserver := ⟨"E", fun _ => Except.error "reach unavailable"⟩

/-- The registry after registering `obsA` and then `obsB`. -/
def regAB : TaskObserverRegistry :=
  TaskObserverRegistry.register (TaskObserverRegistry.register ⟨[]⟩ obsA) obsB

/-- The registry after registering `obsA`, then `obsE`, then `obsB`. -/
def regAEB : TaskObserverRegistry :=
  TaskObserverRegistry.register
    (TaskObserverRegistry.register (TaskObserverRegistry.register ⟨[]⟩ obsA) obsE) obsB

/-- A finalized task-detail snapshot handed to the observers. -/
def demoDetail : ActUserTaskDetail :=
  ⟨2001, 1001, 7, TaskDetailStatus.done, "checkin:7:2024-01-01", 1, 0, 0⟩

/-- The empty store every collaborator starts from (the cmd/api wiring). -/
def emptySysState : SysState :=
  ⟨newTaskRepositoryMemory, newTaskDetailRepositoryMemory, newRiskCheckServiceMemory, ⟨[]⟩⟩

/-! ## Association-list (Go map) lemmas shared by the claims -/

theorem mapLookup_append_of_none {κ α : Type} [DecidableEq κ] {m : List (κ × α)} {k : κ}
    (h : mapLookup m k = none) (m2 : List (κ × α)) :
    mapLookup (m ++ m2) k = mapLookup m2 k := by
  induction m with
  | nil => rfl
  | cons p rest ih =>
    obtain ⟨k1, v1⟩ := p
    by_cases hk : k1 = k
    · simp [mapLookup, hk] at h
    · simp only [mapLookup, hk, if_false, List.cons_append, ite_false] at h ⊢
      exact ih h

theorem mapInsert_of_none {κ α : Type} [DecidableEq κ] {m : List (κ × α)} {k : κ}
    (h : mapLookup m k = none) (v : α) :
    mapInsert m k v = m ++ [(k, v)] := by
  induction m with
  | nil => rfl
  | cons p rest ih =>
    obtain ⟨k1, v1⟩ := p
    by_cases hk : k1 = k
    · simp [mapLookup, hk] at h
    · simp only [mapLookup, hk, ite_false, if_false] at h
      simp only [mapInsert, hk, ite_false, if_false, List.cons_append]
      exact congrArg _ (ih h)

theorem mapErase_of_none {κ α : Type} [DecidableEq κ] {m : List (κ × α)} {k : κ}
    (h : mapLookup m k = none) : mapErase m k = m := by
  induction m with
  | nil => rfl
  | cons p rest ih =>
    obtain ⟨k1, v1⟩ := p
    by_cases hk : k1 = k
    · simp [mapLookup, hk] at h
    · simp only [mapLookup, hk, ite_false, if_false] at h
      unfold mapErase at ih ⊢
      rw [List.filter_cons_of_pos (by simp [hk])]
      rw [ih h]

theorem mapLookup_mapInsert_self {κ α : Type} [DecidableEq κ] (m : List (κ × α)) (k : κ) (v : α) :
    mapLookup (mapInsert m k v) k = some v := by
  induction m with
  | nil => simp [mapInsert, mapLookup]
  | cons p rest ih =>
    obtain ⟨k1, v1⟩ := p
    by_cases hk : k1 = k
    · simp [mapInsert, mapLookup, hk]
    · simp [mapInsert, mapLookup, hk, ih]

/-- Acquiring a free key appends the minted token; unlocking with that token
restores the original lock table exactly. -/
theorem MemoryLock.lock_then_unlock (l : MemoryLock) (k : String) (ttl : Int)
    (h : mapLookup l.locks k = none) :
    l.lock k ttl =
      (Except.ok ("lock_" ++ k ++ "_" ++ toString (l.locks.length + 1)),
        ⟨l.locks ++ [(k, "lock_" ++ k ++ "_" ++ toString (l.locks.length + 1))]⟩) ∧
    MemoryLock.unlock ⟨l.locks ++ [(k, "lock_" ++ k ++ "_" ++ toString (l.locks.length + 1))]⟩ k
      ("lock_" ++ k ++ "_" ++ toString (l.locks.length + 1)) = (Except.ok (), l) := by
  constructor
  · simp only [MemoryLock.lock, h]
    rw [mapInsert_of_none h]
  · simp only [MemoryLock.unlock, mapLookup_append_of_none h]
    simp only [mapLookup, if_pos rfl, ne_eq, not_true_eq_false, ite_false, if_false]
    simp only [mapErase, List.filter_append, reduceIte]
    rw [show (⟨[(k, "lock_" ++ k ++ "_" ++ toString (l.locks.length + 1))]⟩ : MemoryLock).locks.filter
      (fun p => decide ¬ p.1 = k) = ([] : List (String × String)) by simp [List.filter]]
    show (Except.ok (), (⟨(mapErase l.locks k) ++ []⟩ : MemoryLock)) = (Except.ok (), l)
    rw [mapErase_of_none h, List.append_nil]

/-! ## Claim theorems -/

/-- Claim C8: For every external engine, base function registry, per-call
function registry and argument bag, evaluating the empty expression string
returns `true` with no error (default-pass), so a task whose condition
expression is empty always matches. -/
theorem C8_empty_expression_evaluates_true (gov : GovEngine) (base functions : FuncMap)
    (args : ExpressionArguments) :
    GovaluateAdapter.evaluate gov base "" functions args = Except.ok true := rfl

/-- Claim C6: For every lock state: `lock` on a key that is already held fails
immediately with an error and changes nothing (no blocking or queuing), and
`unlock` with a token different from the current holder's fails with an error
and leaves the lock held by that holder. -/
theorem C6_contention_fails_and_wrong_token_keeps_lock (l : MemoryLock)
    (k t wrongToken : String) (ttl : Int)
    (hheld : mapLookup l.locks k = some t) (hne : wrongToken ≠ t) :
    (∃ e, l.lock k ttl = (Except.error e, l)) ∧
    (∃ e, l.unlock k wrongToken = (Except.error e, l)) ∧
    mapLookup (l.unlock k wrongToken).2.locks k = some t := by
  refine ⟨⟨"lock already exists for key: " ++ k, ?_⟩,
    ⟨"lock id mismatch for key: " ++ k, ?_⟩, ?_⟩
  · simp only [MemoryLock.lock, hheld]
  · simp only [MemoryLock.unlock, hheld, ne_eq]
    rw [if_pos (fun hc => hne (hc.symm))]
  · simp only [MemoryLock.unlock, hheld, ne_eq]
    rw [if_pos (fun hc => hne (hc.symm))]
    exact hheld

/-- Witness for C6 at a concrete held lock. -/
theorem C6_contention_fails_and_wrong_token_keeps_lock_witness :
    (∃ e, MemoryLock.lock ⟨[("task_lock:1:checkin", "lock_task_lock:1:checkin_1")]⟩
        "task_lock:1:checkin" 30 =
      (Except.error e, ⟨[("task_lock:1:checkin", "lock_task_lock:1:checkin_1")]⟩)) ∧
    (∃ e, MemoryLock.unlock ⟨[("task_lock:1:checkin", "lock_task_lock:1:checkin_1")]⟩
        "task_lock:1:checkin" "stale" =
      (Except.error e, ⟨[("task_lock:1:checkin", "lock_task_lock:1:checkin_1")]⟩)) ∧
    mapLookup (MemoryLock.unlock ⟨[("task_lock:1:checkin", "lock_task_lock:1:checkin_1")]⟩
        "task_lock:1:checkin" "stale").2.locks "task_lock:1:checkin" =
      some "lock_task_lock:1:checkin_1" :=
  C6_contention_fails_and_wrong_token_keeps_lock
    ⟨[("task_lock:1:checkin", "lock_task_lock:1:checkin_1")]⟩
    "task_lock:1:checkin" "lock_task_lock:1:checkin_1" "stale" 30 rfl (by decide)

/-- Claim C10: The token minted by `lock` is a function of the key and the number
of currently held locks only.  Hence, for a key that is free, the round trip
lock → unlock → lock (other held keys unchanged) returns the same token both
times, and the stale first token successfully releases the second holder's
acquisition. -/
theorem C10_token_reuse_after_round_trip (l : MemoryLock) (k : String) (ttl : Int)
    (hfree : mapLookup l.locks k = none) :
    ∃ t l1,
      t = "lock_" ++ k ++ "_" ++ toString (l.locks.length + 1) ∧
      l.lock k ttl = (Except.ok t, l1) ∧
      (l1.unlock k t).1 = Except.ok () ∧
      ((l1.unlock k t).2).lock k ttl = (Except.ok t, l1) ∧
      ((((l1.unlock k t).2).lock k ttl).2).unlock k t = (Except.ok (), (l1.unlock k t).2) := by
  obtain ⟨hlock, hunlock⟩ := MemoryLock.lock_then_unlock l k ttl hfree
  refine ⟨"lock_" ++ k ++ "_" ++ toString (l.locks.length + 1),
    ⟨l.locks ++ [(k, "lock_" ++ k ++ "_" ++ toString (l.locks.length + 1))]⟩,
    rfl, hlock, ?_, ?_, ?_⟩
  · rw [hunlock]
  · rw [hunlock]
    exact hlock
  · rw [hunlock]
    show ((MemoryLock.lock l k ttl).2).unlock k _ = _
    rw [hlock]
    rw [hunlock]

/-- Witness for C10 on a table holding one other key. -/
theorem C10_token_reuse_after_round_trip_witness :
    ∃ t l1,
      t = "lock_" ++ "task_lock:9:checkin" ++ "_" ++ toString
        ((MemoryLock.mk [("other", "lock_other_1")]).locks.length + 1) ∧
      MemoryLock.lock ⟨[("other", "lock_other_1")]⟩ "task_lock:9:checkin" 30 = (Except.ok t, l1) ∧
      (l1.unlock "task_lock:9:checkin" t).1 = Except.ok () ∧
      ((l1.unlock "task_lock:9:checkin" t).2).lock "task_lock:9:checkin" 30 = (Except.ok t, l1) ∧
      ((((l1.unlock "task_lock:9:checkin" t).2).lock "task_lock:9:checkin" 30).2).unlock
        "task_lock:9:checkin" t = (Except.ok (), (l1.unlock "task_lock:9:checkin" t).2) :=
  C10_token_reuse_after_round_trip ⟨[("other", "lock_other_1")]⟩ "task_lock:9:checkin" 30 rfl

/-- Claim C3: The claim says a trigger attempt with a missing or empty device id
passes the device-fingerprint check.  The code disagrees on the missing case:
`performRiskCheck` always passes a `nil` detail (the detail does not exist yet),
and `CheckDeviceFingerprint` immediately reads `detail.UniqueFlag`, a
nil-pointer dereference.  So a fresh user's trigger attempt (blacklist,
behavior and frequency checks all pass) panics at the device check instead of
proceeding; only the empty-device-id case with a detail present passes. -/
theorem C3_device_check_panics_on_missing_detail :
    RiskCheckServiceMemory.checkDeviceFingerprint newRiskCheckServiceMemory 12345 none =
      GoOutcome.panics ∧
    TriggerTaskUseCase.performRiskCheck 0 newRiskCheckServiceMemory 12345 200 =
      GoOutcome.panics ∧
    RiskCheckServiceMemory.checkDeviceFingerprint newRiskCheckServiceMemory 12345
      (some { id := 0, taskID := 200, userID := 12345, status := TaskDetailStatus.done,
              uniqueFlag := "", rewardValue := 1, createdAt := 0, updatedAt := 0 }) =
      GoOutcome.returns (Except.ok ()) :=
  ⟨rfl, rfl, rfl⟩

/-- The tasks reachable in this core: created by the create-task use case
(positive target, zero progress, pending) and mutated only by the
progress-advance step `UpdateProgress`. -/
inductive ReachableTask : ActUserTask → Prop where
  | created (t : ActUserTask) (hpos : 0 < t.target) (hprog : t.progress = 0)
      (hstatus : t.status = TaskStatus.pending) : ReachableTask t
  | advanced (t : ActUserTask) (now : Int) (h : ReachableTask t) :
      ReachableTask (t.updateProgress now)
/-- `UpdateProgress` as a single conditional equation. -/
theorem updateProgress_eq (t : ActUserTask) (now : Int) :
    t.updateProgress now =
      if t.canProgress then
        (if t.target ≤ t.progress + 1
          then { t with progress := t.progress + 1, status := TaskStatus.done, updatedAt := now }
          else { t with progress := t.progress + 1, updatedAt := now })
      else t := by
  by_cases hcan : t.canProgress = true
  · rw [if_pos hcan]
    simp only [ActUserTask.updateProgress, hcan, not_true_eq_false, if_false, ite_false]
    by_cases hr : t.target ≤ t.progress + 1
    · simp only [if_pos hr]
    · simp only [if_neg hr]
  · have hfalse : t.canProgress = false := by simpa using hcan
    rw [if_neg hcan]
    simp [ActUserTask.updateProgress, hfalse]

theorem updateProgress_target (t : ActUserTask) (now : Int) :
    (t.updateProgress now).target = t.target := by
  rw [updateProgress_eq]
  split_ifs <;> rfl

/-- The state invariant maintained by `UpdateProgress`: a reachable task is
pending with progress strictly below target, or done with progress equal to
target. -/
theorem reachableTask_invariant (t : ActUserTask) (h : ReachableTask t) :
    0 < t.target ∧
      ((t.status = TaskStatus.pending ∧ 0 ≤ t.progress ∧ t.progress < t.target) ∨
        (t.status = TaskStatus.done ∧ t.progress = t.target)) := by
  induction h with
  | created t hpos hprog hstatus =>
    exact ⟨hpos, Or.inl ⟨hstatus, by omega, by omega⟩⟩
  | advanced t now h ih =>
    obtain ⟨hpos, ih⟩ := ih
    refine ⟨by rw [updateProgress_target]; exact hpos, ?_⟩
    rw [updateProgress_eq]
    rcases ih with ⟨hs, hp0, hpt⟩ | ⟨hs, hpt⟩
    · have hcan : t.canProgress = true := by
        simp [ActUserTask.canProgress, ActUserTask.isPending, hs, hpt]
      rw [if_pos hcan]
      by_cases hr : t.target ≤ t.progress + 1
      · rw [if_pos hr]
        refine Or.inr ⟨rfl, ?_⟩
        show t.progress + 1 = t.target
        omega
      · rw [if_neg hr]
        refine Or.inl ⟨?_, ?_, ?_⟩
        · exact hs
        · show 0 ≤ t.progress + 1
          omega
        · show t.progress + 1 < t.target
          omega
    · have hcan : ¬ t.canProgress = true := by
        simp [ActUserTask.canProgress, ActUserTask.isPending, hs]
      rw [if_neg hcan]
      exact Or.inr ⟨hs, hpt⟩

/-- A done task is left entirely unchanged by a further progress-advance call. -/
theorem updateProgress_of_done (t : ActUserTask) (now : Int)
    (hs : t.status = TaskStatus.done) : t.updateProgress now = t := by
  have hcan : ¬ t.canProgress = true := by
    simp [ActUserTask.canProgress, ActUserTask.isPending, hs]
  rw [updateProgress_eq, if_neg hcan]

/-- Claim C4: For every reachable task (created with positive target and mutated
only by the progress-advance step) and any instant: progress stays within
`[0, target]` and never decreases across an advance; progress at target forces
status Done; status is Done exactly when progress equals target (and the same
holds after the next advance, so Done is reached exactly when progress reaches
target and never reverts); and once Done, a further advance changes nothing. -/
theorem C4_progress_status_invariants (t : ActUserTask) (now : Int) (h : ReachableTask t) :
    0 ≤ t.progress ∧ t.progress ≤ t.target ∧
    (t.target ≤ t.progress → t.status = TaskStatus.done) ∧
    (t.status = TaskStatus.done ↔ t.progress = t.target) ∧
    t.progress ≤ (t.updateProgress now).progress ∧
    (t.updateProgress now).progress ≤ t.target ∧
    ((t.updateProgress now).status = TaskStatus.done ↔
      (t.updateProgress now).progress = t.target) ∧
    (t.status = TaskStatus.done → t.updateProgress now = t) := by
  obtain ⟨hpos, inv⟩ := reachableTask_invariant t h
  obtain ⟨-, inv1⟩ := reachableTask_invariant (t.updateProgress now) (ReachableTask.advanced t now h)
  have htarget := updateProgress_target t now
  rcases inv with ⟨hs, hp0, hpt⟩ | ⟨hs, hpt⟩
  · have hcan : t.canProgress = true := by
      simp [ActUserTask.canProgress, ActUserTask.isPending, hs, hpt]
    have hmono : t.progress ≤ (t.updateProgress now).progress := by
      rw [updateProgress_eq, if_pos hcan]
      by_cases hr : t.target ≤ t.progress + 1
      · rw [if_pos hr]
        show t.progress ≤ t.progress + 1
        omega
      · rw [if_neg hr]
        show t.progress ≤ t.progress + 1
        omega
    refine ⟨hp0, by omega, by omega, ?_, hmono, ?_, ?_, ?_⟩
    · constructor
      · intro hdone
        rw [hs] at hdone
        exact absurd hdone (by decide)
      · intro hpe
        omega
    · rcases inv1 with ⟨_, _, h2⟩ | ⟨_, h2⟩ <;> omega
    · rcases inv1 with ⟨h1, _, h2⟩ | ⟨h1, h2⟩
      · rw [h1]
        constructor
        · intro hc
          exact absurd hc (by decide)
        · intro hpe
          omega
      · rw [h1]
        constructor
        · intro _
          omega
        · intro _
          rfl
    · intro hdone
      rw [hs] at hdone
      exact absurd hdone (by decide)
  · have hfix := updateProgress_of_done t now hs
    refine ⟨by omega, by omega, fun _ => hs, ⟨fun _ => hpt, fun _ => hs⟩, ?_, ?_, ?_, fun _ => hfix⟩
    · rw [hfix]
    · rw [hfix]
      omega
    · rw [hfix]
      exact ⟨fun _ => hpt, fun _ => hs⟩

/-- Witness for C4: a freshly created check-in task with target 1 at instant 7. -/
theorem C4_progress_status_invariants_witness :
    0 ≤ (ActUserTask.mk 1001 2 200 12345 "checkin" TaskStatus.pending 0 1 "IS_TODAY()" 0 0).progress ∧
    (ActUserTask.mk 1001 2 200 12345 "checkin" TaskStatus.pending 0 1 "IS_TODAY()" 0 0).progress ≤
      (ActUserTask.mk 1001 2 200 12345 "checkin" TaskStatus.pending 0 1 "IS_TODAY()" 0 0).target ∧
    ((ActUserTask.mk 1001 2 200 12345 "checkin" TaskStatus.pending 0 1 "IS_TODAY()" 0 0).target ≤
        (ActUserTask.mk 1001 2 200 12345 "checkin" TaskStatus.pending 0 1 "IS_TODAY()" 0 0).progress →
      (ActUserTask.mk 1001 2 200 12345 "checkin" TaskStatus.pending 0 1 "IS_TODAY()" 0 0).status =
        TaskStatus.done) ∧
    ((ActUserTask.mk 1001 2 200 12345 "checkin" TaskStatus.pending 0 1 "IS_TODAY()" 0 0).status =
        TaskStatus.done ↔
      (ActUserTask.mk 1001 2 200 12345 "checkin" TaskStatus.pending 0 1 "IS_TODAY()" 0 0).progress =
        (ActUserTask.mk 1001 2 200 12345 "checkin" TaskStatus.pending 0 1 "IS_TODAY()" 0 0).target) ∧
    (ActUserTask.mk 1001 2 200 12345 "checkin" TaskStatus.pending 0 1 "IS_TODAY()" 0 0).progress ≤
      ((ActUserTask.mk 1001 2 200 12345 "checkin" TaskStatus.pending 0 1 "IS_TODAY()" 0 0).updateProgress 7).progress ∧
    ((ActUserTask.mk 1001 2 200 12345 "checkin" TaskStatus.pending 0 1 "IS_TODAY()" 0 0).updateProgress 7).progress ≤
      (ActUserTask.mk 1001 2 200 12345 "checkin" TaskStatus.pending 0 1 "IS_TODAY()" 0 0).target ∧
    (((ActUserTask.mk 1001 2 200 12345 "checkin" TaskStatus.pending 0 1 "IS_TODAY()" 0 0).updateProgress 7).status =
        TaskStatus.done ↔
      ((ActUserTask.mk 1001 2 200 12345 "checkin" TaskStatus.pending 0 1 "IS_TODAY()" 0 0).updateProgress 7).progress =
        (ActUserTask.mk 1001 2 200 12345 "checkin" TaskStatus.pending 0 1 "IS_TODAY()" 0 0).target) ∧
    ((ActUserTask.mk 1001 2 200 12345 "checkin" TaskStatus.pending 0 1 "IS_TODAY()" 0 0).status =
        TaskStatus.done →
      (ActUserTask.mk 1001 2 200 12345 "checkin" TaskStatus.pending 0 1 "IS_TODAY()" 0 0).updateProgress 7 =
        ActUserTask.mk 1001 2 200 12345 "checkin" TaskStatus.pending 0 1 "IS_TODAY()" 0 0) :=
  C4_progress_status_invariants
    (ActUserTask.mk 1001 2 200 12345 "checkin" TaskStatus.pending 0 1 "IS_TODAY()" 0 0) 7
    (ReachableTask.created _ (by decide) rfl rfl)

/-- Claim C5: The task-frequency check rejects exactly when, over the user's
recorded completion history existing before the attempt: the same task id was
completed at least 10 times in the trailing hour, or the user completed at
least 100 tasks in the trailing 24 hours, or the user's total recorded
completions are below 50 while trailing-24-hour completions exceed 20;
otherwise it passes. -/
theorem C5_task_frequency_reject_iff (now : Int) (svc : RiskCheckServiceMemory)
    (userID taskID : Int) :
    RiskCheckServiceMemory.checkTaskFrequency now svc userID taskID ≠ Except.ok () ↔
      (10 ≤ (mapLookupD svc.taskCompletions userID []).countP
          (fun c => now - RiskCheckServiceMemory.hourSeconds < c.timestamp && c.taskID = taskID) ∨
        100 ≤ (mapLookupD svc.taskCompletions userID []).countP
          (fun c => now - RiskCheckServiceMemory.daySeconds < c.timestamp) ∨
        ((mapLookupD svc.taskCompletions userID []).length < 50 ∧
          20 < (mapLookupD svc.taskCompletions userID []).countP
            (fun c => now - RiskCheckServiceMemory.daySeconds < c.timestamp))) := by
  unfold RiskCheckServiceMemory.checkTaskFrequency
  set comps := mapLookupD svc.taskCompletions userID [] with hcomps
  by_cases h1 : comps.length = 0
  · have hnil : comps = [] := List.length_eq_zero.mp h1
    simp [h1, hnil]
  · simp only [h1, ite_false, if_false]
    by_cases h2 : 10 ≤ comps.countP
        (fun c => now - RiskCheckServiceMemory.hourSeconds < c.timestamp && c.taskID = taskID)
    · simp [h2]
    · simp only [h2, ite_false, if_false]
      by_cases h3 : 100 ≤ comps.countP
          (fun c => now - RiskCheckServiceMemory.daySeconds < c.timestamp)
      · simp [h2, h3]
      · simp only [h3, ite_false, if_false]
        by_cases h4 : comps.length < 50 ∧ 20 < comps.countP
            (fun c => now - RiskCheckServiceMemory.daySeconds < c.timestamp)
        · simp [h2, h3, h4]
        · simp [h2, h3, h4]

/-- A task whose condition expression does not match is a no-op for that task. -/
theorem processTask_eval_false (now : Int) (gov : GovEngine) (base functions : FuncMap)
    (args : ExpressionArguments) (uniqueFlag : String) (notifyOrder : List TaskObserver)
    (s : SysState) (task : ActUserTask)
    (heval : GovaluateAdapter.evaluate gov base task.taskCondExpr functions args =
      Except.ok false) :
    TriggerTaskUseCase.processTask now gov base functions args uniqueFlag notifyOrder s task =
      GoOutcome.returns (Except.ok (), s) := by
  unfold TriggerTaskUseCase.processTask
  rw [heval]

/-- A matched task of a blacklisted user is rejected by the first risk-gate
step with the wrapped blacklist error, before any state is touched. -/
theorem processTask_blacklisted (now : Int) (gov : GovEngine) (base functions : FuncMap)
    (args : ExpressionArguments) (uniqueFlag : String) (notifyOrder : List TaskObserver)
    (s : SysState) (task : ActUserTask)
    (hbl : s.risk.isUserBlacklisted task.userID = true)
    (heval : GovaluateAdapter.evaluate gov base task.taskCondExpr functions args =
      Except.ok true) :
    TriggerTaskUseCase.processTask now gov base functions args uniqueFlag notifyOrder s task =
      GoOutcome.returns
        (Except.error "风控检查失败: 用户已被列入黑名单，禁止完成任务", s) := by
  unfold TriggerTaskUseCase.processTask TriggerTaskUseCase.performRiskCheck
  rw [heval, hbl]
  rfl

/-- Running the per-task loop for a blacklisted user whose expressions all
evaluate cleanly and at least one of which matches returns the blacklist
rejection and leaves the state untouched. -/
theorem processLoop_blacklisted (now : Int) (gov : GovEngine) (base functions : FuncMap)
    (args : ExpressionArguments) (uniqueFlag : String) (notifyOrder : List TaskObserver)
    (userID : Int) :
    ∀ (ts : List ActUserTask) (s : SysState) (lastErr : Option String),
      s.risk.isUserBlacklisted userID = true →
      (∀ t ∈ ts, t.userID = userID) →
      (∀ t ∈ ts, ∃ b, GovaluateAdapter.evaluate gov base t.taskCondExpr functions args =
        Except.ok b) →
      (∃ t ∈ ts, GovaluateAdapter.evaluate gov base t.taskCondExpr functions args =
        Except.ok true) →
      TriggerTaskUseCase.processLoop now gov base functions args uniqueFlag notifyOrder
          s ts lastErr =
        GoOutcome.returns
          (some "风控检查失败: 用户已被列入黑名单，禁止完成任务", s) := by
  intro ts
  induction ts with
  | nil =>
    intro s lastErr _ _ _ hsome
    simp at hsome
  | cons t rest ih =>
    intro s lastErr hbl huid hall hsome
    obtain ⟨b, hb⟩ := hall t (by simp)
    have hblt : s.risk.isUserBlacklisted t.userID = true := by
      rw [huid t (by simp)]
      exact hbl
    cases b with
    | true =>
      have hpt := processTask_blacklisted now gov base functions args uniqueFlag notifyOrder
        s t hblt hb
      unfold TriggerTaskUseCase.processLoop
      rw [hpt]
      rfl
    | false =>
      have hpt := processTask_eval_false now gov base functions args uniqueFlag notifyOrder
        s t hb
      unfold TriggerTaskUseCase.processLoop
      rw [hpt]
      show TriggerTaskUseCase.processLoop now gov base functions args uniqueFlag notifyOrder
        s rest lastErr = _
      refine ih s lastErr hbl (fun u hu => huid u (by simp [hu]))
        (fun u hu => hall u (by simp [hu])) ?_
      obtain ⟨t0, ht0, he0⟩ := hsome
      rcases List.mem_cons.mp ht0 with heq | hmem
      · subst heq
        rw [hb] at he0
        exact absurd (Except.ok.inj he0) (by decide)
      · exact ⟨t0, hmem, he0⟩

/-- Claim C1: For a blacklisted user, a trigger invocation whose condition
expression matches a (valid) task — with every valid task's expression
evaluating cleanly — is rejected by the risk gate with the blacklist error
before any Task Detail is created: the whole system state is returned
unchanged, so `existsByUniqueFlag` for the attempt's flag stays false and every
task's progress and status are untouched. -/
theorem C1_blacklisted_rejected_before_detail (now : Int) (gov : GovEngine)
    (base functions : FuncMap) (args : ExpressionArguments) (s : SysState)
    (userID : Int) (taskType uniqueFlag : String) (tasksListing : List ActUserTask)
    (notifyOrder : List TaskObserver)
    (hbl : s.risk.isUserBlacklisted userID = true)
    (hfree : mapLookup s.memLock.locks (TriggerTaskUseCase.lockKey userID taskType) = none)
    (hlist : TriggerTaskUseCase.admissibleListing s.taskRepo userID taskType tasksListing)
    (hall : ∀ t ∈ TriggerTaskUseCase.filterValidTasks now tasksListing,
      ∃ b, GovaluateAdapter.evaluate gov base t.taskCondExpr functions args = Except.ok b)
    (hsome : ∃ t ∈ TriggerTaskUseCase.filterValidTasks now tasksListing,
      GovaluateAdapter.evaluate gov base t.taskCondExpr functions args = Except.ok true)
    (hflag : s.detailRepo.existsByUniqueFlag uniqueFlag = false) :
    TriggerTaskUseCase.executeOn now gov base functions s userID taskType uniqueFlag args
        tasksListing notifyOrder =
      GoOutcome.returns
        (some "风控检查失败: 用户已被列入黑名单，禁止完成任务", s) ∧
    TriggerTaskUseCase.isRiskCheckError
      "风控检查失败: 用户已被列入黑名单，禁止完成任务" = true ∧
    s.detailRepo.existsByUniqueFlag uniqueFlag = false := by
  refine ⟨?_, by decide, hflag⟩
  obtain ⟨hlock, hunlock⟩ :=
    MemoryLock.lock_then_unlock s.memLock (TriggerTaskUseCase.lockKey userID taskType) 30 hfree
  have hne : tasksListing.isEmpty = false := by
    obtain ⟨t0, ht0, -⟩ := hsome
    have : t0 ∈ tasksListing := List.mem_filter.mp ht0 |>.1
    cases tasksListing with
    | nil => simp at this
    | cons a l => rfl
  have huid : ∀ t ∈ TriggerTaskUseCase.filterValidTasks now tasksListing, t.userID = userID := by
    intro t ht
    have hmem : t ∈ tasksListing := List.mem_filter.mp ht |>.1
    have hmem2 : t ∈ s.taskRepo.listByUserIDAndType userID taskType := hlist.mem_iff.mp hmem
    have := List.mem_filter.mp hmem2 |>.2
    simp only [Bool.and_eq_true, decide_eq_true_eq] at this
    exact this.1
  have hrestore : TriggerTaskUseCase.unlockOnExit
      { s with memLock := ⟨s.memLock.locks ++ [(TriggerTaskUseCase.lockKey userID taskType,
          "lock_" ++ TriggerTaskUseCase.lockKey userID taskType ++ "_" ++
            toString (s.memLock.locks.length + 1))]⟩ }
      (TriggerTaskUseCase.lockKey userID taskType)
      ("lock_" ++ TriggerTaskUseCase.lockKey userID taskType ++ "_" ++
        toString (s.memLock.locks.length + 1)) = s := by
    unfold TriggerTaskUseCase.unlockOnExit
    dsimp only
    rw [hunlock]
  unfold TriggerTaskUseCase.executeOn
  rw [hlock]
  simp only [hne, Bool.false_eq_true, if_false, ite_false]
  rw [processLoop_blacklisted now gov base functions args uniqueFlag notifyOrder userID
    (TriggerTaskUseCase.filterValidTasks now tasksListing)
    { s with memLock := ⟨s.memLock.locks ++ [(TriggerTaskUseCase.lockKey userID taskType,
        "lock_" ++ TriggerTaskUseCase.lockKey userID taskType ++ "_" ++
          toString (s.memLock.locks.length + 1))]⟩ }
    none hbl huid hall hsome]
  dsimp only
  rw [hrestore]

/-- Witness for C1: user 7 is blacklisted, holds one pending check-in task with
an empty (always-matching) expression, and the trigger attempt is rejected with
the store returned unchanged. -/
theorem C1_blacklisted_rejected_before_detail_witness :
    TriggerTaskUseCase.executeOn 0 govDemo [] [] demoStateBlacklisted 7 "checkin"
        "checkin:7:2024-01-01" [] [demoTaskBlacklisted] [] =
      GoOutcome.returns
        (some "风控检查失败: 用户已被列入黑名单，禁止完成任务", demoStateBlacklisted) ∧
    TriggerTaskUseCase.isRiskCheckError
      "风控检查失败: 用户已被列入黑名单，禁止完成任务" = true ∧
    demoStateBlacklisted.detailRepo.existsByUniqueFlag "checkin:7:2024-01-01" = false :=
  C1_blacklisted_rejected_before_detail 0 govDemo [] [] [] demoStateBlacklisted 7 "checkin"
    "checkin:7:2024-01-01" [demoTaskBlacklisted] [] rfl rfl
    (List.Perm.refl _)
    (by
      intro t ht
      rw [show TriggerTaskUseCase.filterValidTasks 0 [demoTaskBlacklisted] =
        [demoTaskBlacklisted] from rfl] at ht
      rw [List.mem_singleton] at ht
      subst ht
      exact ⟨true, rfl⟩)
    ⟨demoTaskBlacklisted,
      by
        rw [show TriggerTaskUseCase.filterValidTasks 0 [demoTaskBlacklisted] =
          [demoTaskBlacklisted] from rfl]
        exact List.mem_singleton.mpr rfl,
      rfl⟩
    rfl

/-- Containment of a needle survives appending more text on the right. -/
theorem strContains_append_left (a b n : String) (h : strContains a n = true) :
    strContains (a ++ b) n = true := by
  unfold strContains at h ⊢
  rw [String.data_append]
  exact decide_eq_true ((of_decide_eq_true h).trans (List.prefix_append a.data b.data).isInfix)

/-- Claim C2 (amended): any per-task error whose message contains one of the
five risk keywords — which includes every risk-gate rejection, since
`processTask` wraps those with the 风控检查失败 marker — aborts the remaining
loop immediately: the invocation returns that error and no later task in the
batch is processed.  The classification is substring matching on the message
(`isRiskCheckError`), not a dedicated error kind. -/
theorem C2_risk_classified_error_aborts_batch (now : Int) (gov : GovEngine)
    (base functions : FuncMap) (args : ExpressionArguments) (uniqueFlag : String)
    (notifyOrder : List TaskObserver) (s s1 : SysState) (task : ActUserTask)
    (rest : List ActUserTask) (lastErr : Option String) (e : String)
    (h1 : TriggerTaskUseCase.processTask now gov base functions args uniqueFlag notifyOrder
      s task = GoOutcome.returns (Except.error e, s1))
    (h2 : TriggerTaskUseCase.isRiskCheckError e = true) :
    TriggerTaskUseCase.processLoop now gov base functions args uniqueFlag notifyOrder
        s (task :: rest) lastErr = GoOutcome.returns (some e, s1) ∧
    TriggerTaskUseCase.isRiskCheckError ("风控检查失败: " ++ e) = true := by
  constructor
  · unfold TriggerTaskUseCase.processLoop
    rw [h1]
    dsimp only
    rw [if_pos h2]
  · unfold TriggerTaskUseCase.isRiskCheckError
    rw [strContains_append_left "风控检查失败: " e "风控检查失败" (by decide)]
    rfl

/-- Witness for the amended C2: the blacklisted user's risk rejection on the
first task aborts the loop with a second task still pending. -/
theorem C2_risk_classified_error_aborts_batch_witness :
    TriggerTaskUseCase.processLoop 0 govDemo [] [] [] "checkin:7:2024-01-01" []
        demoStateBlacklisted [demoTaskBlacklisted, demoTaskBlacklisted] none =
      GoOutcome.returns
        (some "风控检查失败: 用户已被列入黑名单，禁止完成任务", demoStateBlacklisted) ∧
    TriggerTaskUseCase.isRiskCheckError
      ("风控检查失败: " ++ "风控检查失败: 用户已被列入黑名单，禁止完成任务") = true :=
  C2_risk_classified_error_aborts_batch 0 govDemo [] [] [] "checkin:7:2024-01-01" []
    demoStateBlacklisted demoStateBlacklisted demoTaskBlacklisted [demoTaskBlacklisted] none
    "风控检查失败: 用户已被列入黑名单，禁止完成任务" rfl (by decide)

set_option maxRecDepth 8192 in
/-- Counterexample for C2 as stated: risk classification is substring matching
on the message, not a dedicated error kind.  An ordinary evaluation error whose
parse message happens to quote the blacklist keyword (the task's malformed
expression text contains it) is classified as risk-related and aborts the whole
invocation before the second task runs, while the same kind of evaluation error
without the keyword lets processing continue to the second task (whose error is
then the one returned).  Callers therefore cannot branch on the classification
reliably. -/
theorem C2_counterexample_string_matching :
    TriggerTaskUseCase.executeOn 0 govDemo [] [] demoStateTwoTasks 5 "checkin" "flag" []
        [demoTaskKeyword, demoTaskPlain] [] =
      GoOutcome.returns
        (some "evaluate expression failed: parse expression failed: Invalid token: 黑名单 > 1",
          demoStateTwoTasks) ∧
    TriggerTaskUseCase.isRiskCheckError
      "evaluate expression failed: parse expression failed: Invalid token: 黑名单 > 1" = true ∧
    TriggerTaskUseCase.executeOn 0 govDemo [] [] demoStateTwoPlainTasks 5 "checkin" "flag" []
        [demoTaskPlainFirst, demoTaskPlain] [] =
      GoOutcome.returns
        (some "evaluate expression failed: parse expression failed: Invalid token: x >",
          demoStateTwoPlainTasks) ∧
    TriggerTaskUseCase.isRiskCheckError
      "evaluate expression failed: parse expression failed: Invalid token: x >" = false :=
  ⟨rfl, rfl, rfl, rfl⟩

/-- When every observer succeeds, `Notify` invokes all of them along the given
iteration order. -/
theorem notifyRun_none_visits_all (order : List TaskObserver) (d : ActUserTaskDetail)
    (h : (notifyRun order d).2 = none) :
    (notifyRun order d).1 = order.map TaskObserver.name := by
  induction order with
  | nil => rfl
  | cons o rest ih =>
    unfold notifyRun at h ⊢
    cases ho : o.onTaskDetailCreated d with
    | error e =>
      rw [ho] at h
      simp at h
    | ok u =>
      rw [ho] at h
      dsimp only at h ⊢
      rw [List.map_cons]
      exact congrArg _ (ih h)

/-- When `Notify` surfaces an error, the iteration order splits into a prefix
of succeeding observers, the first failing observer — whose wrapped error is
the surfaced one — and a suffix that is never invoked. -/
theorem notifyRun_error_decomp (order : List TaskObserver) (d : ActUserTaskDetail)
    (e : String) (h : (notifyRun order d).2 = some e) :
    ∃ pre o suf, order = pre ++ o :: suf ∧
      (∀ p ∈ pre, p.onTaskDetailCreated d = Except.ok ()) ∧
      (∃ e0, o.onTaskDetailCreated d = Except.error e0 ∧
        e = "observer " ++ o.name ++ " failed: " ++ e0) ∧
      (notifyRun order d).1 = pre.map TaskObserver.name ++ [o.name] := by
  induction order with
  | nil => simp [notifyRun] at h
  | cons o rest ih =>
    unfold notifyRun at h ⊢
    cases ho : o.onTaskDetailCreated d with
    | error e0 =>
      rw [ho] at h
      dsimp only at h ⊢
      refine ⟨[], o, rest, rfl, by simp, ⟨e0, ho, ?_⟩, rfl⟩
      exact (Option.some.inj h).symm
    | ok u =>
      rw [ho] at h
      dsimp only at h ⊢
      obtain ⟨pre, o1, suf, horder, hpre, he0, hvisit⟩ := ih h
      cases u
      refine ⟨o :: pre, o1, suf, by rw [List.cons_append, ← horder], ?_, he0, ?_⟩
      · intro p hp
        rcases List.mem_cons.mp hp with hph | hpt
        · rw [hph]
          exact ho
        · exact hpre p hpt
      · rw [List.map_cons, List.cons_append, hvisit]

/-- Claim C7 (amended): `Notify` visits the registered observers along an
unspecified iteration order of the observers map (any permutation of the
stored entries — not necessarily registration order); the first observer that
returns an error stops the iteration, observers later in that order are not
invoked, and the surfaced error is the failing observer's, wrapped; and the
notification outcome never feeds back into the persisted state — the Task
Detail created by `persistAndNotify` is still stored afterwards, whatever the
iteration order did. -/
theorem C7_notify_order_stop_and_no_undo (r : TaskObserverRegistry)
    (order : List TaskObserver) (d : ActUserTaskDetail) (now : Int)
    (uniqueFlag : String) (s : SysState) (task : ActUserTask)
    (hperm : order.Perm r.entries) :
    ((notifyRun order d).2 = none →
      (notifyRun order d).1 = order.map TaskObserver.name) ∧
    (∀ e, (notifyRun order d).2 = some e →
      ∃ pre o suf, order = pre ++ o :: suf ∧
        (∀ p ∈ pre, p.onTaskDetailCreated d = Except.ok ()) ∧
        (∃ e0, o.onTaskDetailCreated d = Except.error e0 ∧
          e = "observer " ++ o.name ++ " failed: " ++ e0) ∧
        (notifyRun order d).1 = pre.map TaskObserver.name ++ [o.name]) ∧
    (TriggerTaskUseCase.persistAndNotify now uniqueFlag order s task).2 =
      (TriggerTaskUseCase.persistAndNotify now uniqueFlag [] s task).2 ∧
    (∃ stored,
      mapLookup (TriggerTaskUseCase.persistAndNotify now uniqueFlag order s task).2.detailRepo.details
          (s.detailRepo.idGen + 1) = some stored ∧
        stored.uniqueFlag = uniqueFlag ∧ stored.taskID = task.id ∧
        stored.status = TaskDetailStatus.done) := by
  have _ := hperm
  refine ⟨notifyRun_none_visits_all order d, fun e he => notifyRun_error_decomp order d e he,
    rfl, ?_⟩
  unfold TriggerTaskUseCase.persistAndNotify TaskDetailRepositoryMemory.create
  dsimp only
  split
  · dsimp only
    exact ⟨_, mapLookup_mapInsert_self _ _ _, rfl, rfl, rfl⟩
  · dsimp only
    exact ⟨_, mapLookup_mapInsert_self _ _ _, rfl, rfl, rfl⟩

/-- Witness for the amended C7: three registered observers iterated in the
reverse of registration order, the middle one failing. -/
theorem C7_notify_order_stop_and_no_undo_witness :
    ((notifyRun [obsB, obsE, obsA] demoDetail).2 = none →
      (notifyRun [obsB, obsE, obsA] demoDetail).1 =
        [obsB, obsE, obsA].map TaskObserver.name) ∧
    (∀ e, (notifyRun [obsB, obsE, obsA] demoDetail).2 = some e →
      ∃ pre o suf, [obsB, obsE, obsA] = pre ++ o :: suf ∧
        (∀ p ∈ pre, p.onTaskDetailCreated demoDetail = Except.ok ()) ∧
        (∃ e0, o.onTaskDetailCreated demoDetail = Except.error e0 ∧
          e = "observer " ++ o.name ++ " failed: " ++ e0) ∧
        (notifyRun [obsB, obsE, obsA] demoDetail).1 =
          pre.map TaskObserver.name ++ [o.name]) ∧
    (TriggerTaskUseCase.persistAndNotify 0 "checkin:7:2024-01-01" [obsB, obsE, obsA]
        emptySysState demoTaskBlacklisted).2 =
      (TriggerTaskUseCase.persistAndNotify 0 "checkin:7:2024-01-01" []
        emptySysState demoTaskBlacklisted).2 ∧
    (∃ stored,
      mapLookup (TriggerTaskUseCase.persistAndNotify 0 "checkin:7:2024-01-01" [obsB, obsE, obsA]
          emptySysState demoTaskBlacklisted).2.detailRepo.details
          (emptySysState.detailRepo.idGen + 1) = some stored ∧
        stored.uniqueFlag = "checkin:7:2024-01-01" ∧ stored.taskID = demoTaskBlacklisted.id ∧
        stored.status = TaskDetailStatus.done) :=
  C7_notify_order_stop_and_no_undo regAEB [obsB, obsE, obsA] demoDetail 0
    "checkin:7:2024-01-01" emptySysState demoTaskBlacklisted
    (by
      rw [show regAEB.entries = [obsA, obsE, obsB] from rfl]
      exact List.reverse_perm [obsA, obsE, obsB])

/-- Counterexample for C7 as stated: the observers live in a Go map keyed by
name, whose iteration order is unspecified, so notification is not guaranteed
to follow registration order.  With observers registered in the order A then B,
the iteration [B, A] is a permutation of the stored entries — an admissible map
iteration — and visits B before A. -/
theorem C7_counterexample_not_registration_order :
    regAB.entries = [obsA, obsB] ∧
    List.Perm [obsB, obsA] regAB.entries ∧
    (notifyRun [obsB, obsA] demoDetail).1 = ["B", "A"] ∧
    (notifyRun [obsB, obsA] demoDetail).2 = none ∧
    (["B", "A"] : List String) ≠ ["A", "B"] := by
  refine ⟨rfl, ?_, rfl, rfl, by decide⟩
  rw [show regAB.entries = [obsA, obsB] from rfl]
  exact List.Perm.swap obsA obsB []

/-- Counterexample for C9 as stated: creating a task with an empty condition
expression does not succeed — `validateInput` rejects it with
"task_cond_expr is required" (and the entity-level `IsValid` would reject it
too), so the claimed scenario never reaches the trigger step. -/
theorem C9_counterexample_empty_expr_rejected :
    CreateTaskUseCase.execute newTaskRepositoryMemory
        ⟨2, 200, 12345, 1, "checkin", ""⟩ 0 =
      (Except.error "task_cond_expr is required", newTaskRepositoryMemory) := rfl

/-- Claim C9 (amended): starting from an empty store, creating a task with
activity id 2, task id 200, user id 12345, target 1, type check-in and an
empty condition expression fails validation with "task_cond_expr is required"
and persists nothing; the subsequent check-in trigger event for user 12345 then
finds no tasks (the empty listing is the admissible iteration of the empty task
map) and is a no-op: it succeeds with the store unchanged, so no task becomes
Done and no Task Detail is persisted. -/
theorem C9_empty_expr_scenario :
    CreateTaskUseCase.execute newTaskRepositoryMemory
        ⟨2, 200, 12345, 1, "checkin", ""⟩ 0 =
      (Except.error "task_cond_expr is required", newTaskRepositoryMemory) ∧
    TriggerTaskUseCase.admissibleListing emptySysState.taskRepo 12345 "checkin" [] ∧
    TriggerTaskUseCase.executeOn 0 govDemo [] [] emptySysState 12345 "checkin"
        "checkin:12345:2024-01-01" [] [] [] =
      GoOutcome.returns (none, emptySysState) ∧
    emptySysState.taskRepo.tasks = [] ∧
    emptySysState.detailRepo.details = [] :=
  ⟨rfl, List.Perm.refl [], rfl, rfl, rfl⟩
